import Mathlib

/-!
Shallow embedding of the heidi identifier core (number.rs, nhs.rs, chi.rs).

Digits are Rust u16 values modelled as Nat; u16 arithmetic wraps modulo
2 ^ 16, written explicitly where the source computes in u16. Fallible
operations return Except; string parsing returns a dedicated ParseResult
with a constructor for the unwrap panic reachable in from_str.
-/

namespace Heidi

instance instDecEqExcept {ε α : Type} [DecidableEq ε] [DecidableEq α] :
    DecidableEq (Except ε α) := fun a b =>
  match a, b with
  | .ok x, .ok y =>
    if h : x = y then .isTrue (by rw [h])
    else .isFalse (by intro hc; cases hc; exact h rfl)
  | .ok _, .error _ => .isFalse (by intro hc; cases hc)
  | .error _, .ok _ => .isFalse (by intro hc; cases hc)
  | .error x, .error y =>
    if h : x = y then .isTrue (by rw [h])
    else .isFalse (by intro hc; cases hc; exact h rfl)

/-- Models ValidationError (error.rs, nhs.rs): a message-carrying error. -/
structure ValidationError where
  msg : String
deriving DecidableEq, Repr

/-- Models the array [Digit; 9] of the 9 significant digits. -/
structure Digits9 where
  d0 : Nat
  d1 : Nat
  d2 : Nat
  d3 : Nat
  d4 : Nat
  d5 : Nat
  d6 : Nat
  d7 : Nat
  d8 : Nat
deriving DecidableEq, Repr

/-- Models the array [Digit; 10]: 9 significant digits plus a control digit. -/
structure Digits10 where
  e0 : Nat
  e1 : Nat
  e2 : Nat
  e3 : Nat
  e4 : Nat
  e5 : Nat
  e6 : Nat
  e7 : Nat
  e8 : Nat
  e9 : Nat
deriving DecidableEq, Repr

/-- Models the Number struct shared in shape by number.rs, nhs.rs and chi.rs. -/
structure Number where
  digits : Digits9
  checkdigit : Nat
deriving DecidableEq, Repr

/-- All nine entries are decimal digits, the documented domain of type Digit. -/
def DigitsInRange (d : Digits9) : Prop :=
  d.d0 ≤ 9 ∧ d.d1 ≤ 9 ∧ d.d2 ≤ 9 ∧ d.d3 ≤ 9 ∧ d.d4 ≤ 9 ∧ d.d5 ≤ 9 ∧
    d.d6 ≤ 9 ∧ d.d7 ≤ 9 ∧ d.d8 ≤ 9

instance (d : Digits9) : Decidable (DigitsInRange d) := by
  unfold DigitsInRange
  infer_instance

/-- Wrapping of Rust u16 arithmetic results. -/
def u16 (n : Nat) : Nat := n % 65536

/-- Models the fold in check_digit (number.rs lines 221 to 224, duplicated in
nhs.rs and chi.rs): sum over index and digit of digit times (10 minus index),
in u16 arithmetic, unrolled over the fixed 9 entries. -/
def weighted_sum (d : Digits9) : Nat :=
  u16 (u16 (u16 (u16 (u16 (u16 (u16 (u16 (u16 (0 + u16 (d.d0 * 10)) +
    u16 (d.d1 * 9)) + u16 (d.d2 * 8)) + u16 (d.d3 * 7)) + u16 (d.d4 * 6)) +
    u16 (d.d5 * 5)) + u16 (d.d6 * 4)) + u16 (d.d7 * 3)) + u16 (d.d8 * 2))

/-- Weighted sum as written in the spec: sum of digit i times (10 minus i),
in unbounded arithmetic. Stated from the spec words for comparison with the
source function weighted_sum. -/
def specWeightedSum (d : Digits9) : Nat :=
  d.d0 * 10 + d.d1 * 9 + d.d2 * 8 + d.d3 * 7 + d.d4 * 6 + d.d5 * 5 +
    d.d6 * 4 + d.d7 * 3 + d.d8 * 2

/-- Models char::to_digit(10): some value for an ascii decimal digit, none
otherwise. -/
def char_to_digit10 (c : Char) : Option Nat :=
  if 48 ≤ c.toNat ∧ c.toNat ≤ 57 then some (c.toNat - 48) else none

/-- Models char::is_whitespace of Rust: the Unicode White_Space code points. -/
def is_whitespace (c : Char) : Bool :=
  decide ((9 ≤ c.toNat ∧ c.toNat ≤ 13) ∨ c.toNat = 32 ∨ c.toNat = 133 ∨
    c.toNat = 160 ∨ c.toNat = 5760 ∨ (8192 ≤ c.toNat ∧ c.toNat ≤ 8202) ∨
    c.toNat = 8232 ∨ c.toNat = 8233 ∨ c.toNat = 8239 ∨ c.toNat = 8287 ∨
    c.toNat = 12288)

/-- Models the filter_map in from_str: whitespace characters are skipped, a
decimal digit is kept, and any other character hits to_digit(10).unwrap(),
which panics; none models that panic. -/
def extract_digits : List Char → Option (List Nat)
  | [] => some []
  | c :: cs =>
    if is_whitespace c then extract_digits cs
    else
      match char_to_digit10 c with
      | none => none
      | some d =>
        match extract_digits cs with
        | none => none
        | some ds => some (d :: ds)

/-- Outcome of from_str: a Number, a returned error, or a process panic. -/
inductive ParseResult where
  | ok (number : Number)
  | error (e : ValidationError)
  | panic
deriving DecidableEq, Repr

/-- Injects the Except outcome of try_from into a ParseResult. -/
def ofExcept : Except ValidationError Number → ParseResult
  | .ok n => .ok n
  | .error e => .error e

/-- The mismatch message format string shared by the three try_from impls. -/
def mismatch_msg (control actual : Nat) : String :=
  "The given check digit " ++ Nat.repr control ++
    " does not match the actual check digit " ++ Nat.repr actual

/-- The digits a CHI prefix reads as a day, per the spec formula. -/
def chi_day (d : Digits9) : Nat := d.d0 * 10 + d.d1

/-- The digits a CHI prefix reads as a month, per the spec formula. -/
def chi_month (d : Digits9) : Nat := d.d2 * 10 + d.d3

/-- The whitespace-stripped digit values of a string, the spec reading of the
digit extraction. -/
def stripped (s : String) : List Nat :=
  (s.data.filter (fun c => !is_whitespace c)).map (fun c => c.toNat - 48)

namespace Core

/-- Models check_digit (number.rs lines 220 to 236). -/
def check_digit (digits : Digits9) : Except ValidationError Nat :=
  let chi := 11 - weighted_sum digits % 11
  if chi = 11 then .ok 0
  else if 10 ≤ chi then .error ⟨"Modulus 11 numbers cannot have a check digit of 10"⟩
  else .ok chi

/-- Models Number::new (number.rs lines 38 to 43). -/
def Number.new (digits : Digits9) : Except ValidationError Number :=
  match check_digit digits with
  | .ok c => .ok ⟨digits, c⟩
  | .error e => .error e

/-- Models TryFrom of a 10 digit array (number.rs lines 91 to 108). -/
def Number.try_from10 (value : Digits10) : Except ValidationError Number :=
  let control := value.e9
  let digits : Digits9 :=
    ⟨value.e0, value.e1, value.e2, value.e3, value.e4, value.e5, value.e6,
      value.e7, value.e8⟩
  match Number.new digits with
  | .error e => .error e
  | .ok number =>
    if number.checkdigit ≠ control then
      .error ⟨mismatch_msg control number.checkdigit⟩
    else .ok number

/-- Models FromStr (number.rs lines 195 to 217): strip whitespace, extract
digits via to_digit(10).unwrap(), require exactly 10 of them, then delegate
to the 10 digit TryFrom. -/
def Number.from_str (s : String) : ParseResult :=
  match extract_digits s.data with
  | none => .panic
  | some vec =>
    if vec.length ≠ 10 then .error ⟨"NHS Numbers must be of ten-digit long"⟩
    else
      ofExcept (Number.try_from10
        ⟨vec.getD 0 0, vec.getD 1 0, vec.getD 2 0, vec.getD 3 0, vec.getD 4 0,
          vec.getD 5 0, vec.getD 6 0, vec.getD 7 0, vec.getD 8 0, vec.getD 9 0⟩)

/-- Models TryFrom of a String (number.rs lines 129 to 131): delegates to
from_str. -/
def Number.try_from_string (s : String) : ParseResult :=
  Number.from_str s

/-- Models TryFrom of usize (number.rs lines 154 to 174): the magnitude guard
followed by the digit decomposition loop, unrolled over idx 0 to 9 with the
divisor running from 10 ^ 9 down to 1. -/
def Number.try_from_usize (value : Nat) : Except ValidationError Number :=
  if (value / 1000000000 * 10) % 10 ≠ 0 then
    .error ⟨"The given number " ++ Nat.repr value ++ " has more than 10 digits."⟩
  else
    Number.try_from10
      ⟨value / 1000000000 % 10, value / 100000000 % 10, value / 10000000 % 10,
        value / 1000000 % 10, value / 100000 % 10, value / 10000 % 10,
        value / 1000 % 10, value / 100 % 10, value / 10 % 10, value / 1 % 10⟩

end Core

namespace NHS

/-- Models check_digit (nhs.rs lines 275 to 291), same fold as number.rs with
an NHS specific error message. -/
def check_digit (digits : Digits9) : Except ValidationError Nat :=
  let chi := 11 - weighted_sum digits % 11
  if chi = 11 then .ok 0
  else if 10 ≤ chi then .error ⟨"NHS numbers don\x27t have a check digit of 10"⟩
  else .ok chi

/-- Models Number::new (nhs.rs lines 87 to 92). -/
def Number.new (digits : Digits9) : Except ValidationError Number :=
  match check_digit digits with
  | .ok c => .ok ⟨digits, c⟩
  | .error e => .error e

/-- Models TryFrom of a 10 digit array (nhs.rs lines 146 to 163). -/
def Number.try_from10 (value : Digits10) : Except ValidationError Number :=
  let control := value.e9
  let digits : Digits9 :=
    ⟨value.e0, value.e1, value.e2, value.e3, value.e4, value.e5, value.e6,
      value.e7, value.e8⟩
  match Number.new digits with
  | .error e => .error e
  | .ok number =>
    if number.checkdigit ≠ control then
      .error ⟨mismatch_msg control number.checkdigit⟩
    else .ok number

/-- Models FromStr (nhs.rs lines 250 to 272). -/
def Number.from_str (s : String) : ParseResult :=
  match extract_digits s.data with
  | none => .panic
  | some vec =>
    if vec.length ≠ 10 then .error ⟨"NHS Numbers must be of ten-digit long"⟩
    else
      ofExcept (Number.try_from10
        ⟨vec.getD 0 0, vec.getD 1 0, vec.getD 2 0, vec.getD 3 0, vec.getD 4 0,
          vec.getD 5 0, vec.getD 6 0, vec.getD 7 0, vec.getD 8 0, vec.getD 9 0⟩)

/-- Models the Display impl (nhs.rs lines 103 to 124): the 9 digits then the
check digit, each written in decimal, with a space after the third and the
sixth digit exactly when the alternate flag is set. -/
def display (n : Number) (alternate : Bool) : String :=
  Nat.repr n.digits.d0 ++ Nat.repr n.digits.d1 ++ Nat.repr n.digits.d2 ++
    (if alternate then " " else "") ++
    Nat.repr n.digits.d3 ++ Nat.repr n.digits.d4 ++ Nat.repr n.digits.d5 ++
    (if alternate then " " else "") ++
    Nat.repr n.digits.d6 ++ Nat.repr n.digits.d7 ++ Nat.repr n.digits.d8 ++
    Nat.repr n.checkdigit

/-- Models lottery (nhs.rs lines 323 to 338) over an injected stream of digit
draws: each draw is tried with Number::new and the next draw is used when it
fails. The source recurses with fresh randomness; an exhausted stream, which
stands for the never-returning retry path, is reported as an error here. -/
def lottery : List Digits9 → Except ValidationError Number
  | [] => .error ⟨"lottery: digit source exhausted"⟩
  | d :: rest =>
    match Number.new d with
    | .error _ => lottery rest
    | .ok number => .ok number

end NHS

namespace CHI

/-- Models validate (chi.rs lines 235 to 244): the day and month bounds check
on the first four digits, in u16 arithmetic. -/
def validate (digits : Digits9) : Except ValidationError Unit :=
  let day := u16 (u16 (digits.d0 * 10) + digits.d1)
  let month := u16 (u16 (digits.d2 * 10) + digits.d3)
  if day = 0 ∨ 31 < day ∨ month = 0 ∨ 12 < month then
    .error ⟨"Invalid CHI number"⟩
  else .ok ()

/-- Models check_digit (chi.rs lines 246 to 262), same fold as number.rs with
a CHI specific error message. -/
def check_digit (digits : Digits9) : Except ValidationError Nat :=
  let chi := 11 - weighted_sum digits % 11
  if chi = 11 then .ok 0
  else if 10 ≤ chi then .error ⟨"CHI numbers don\x27t have a check digit of 10"⟩
  else .ok chi

/-- Models Number::new (chi.rs lines 48 to 55): validate runs first, then the
check digit is computed. -/
def Number.new (digits : Digits9) : Except ValidationError Number :=
  match validate digits with
  | .error e => .error e
  | .ok _ =>
    match check_digit digits with
    | .ok c => .ok ⟨digits, c⟩
    | .error e => .error e

/-- Models TryFrom of a 10 digit array (chi.rs lines 103 to 121). -/
def Number.try_from10 (value : Digits10) : Except ValidationError Number :=
  let control := value.e9
  let digits : Digits9 :=
    ⟨value.e0, value.e1, value.e2, value.e3, value.e4, value.e5, value.e6,
      value.e7, value.e8⟩
  match Number.new digits with
  | .error e => .error e
  | .ok number =>
    if number.checkdigit ≠ control then
      .error ⟨mismatch_msg control number.checkdigit⟩
    else .ok number

/-- Models FromStr (chi.rs lines 207 to 229). -/
def Number.from_str (s : String) : ParseResult :=
  match extract_digits s.data with
  | none => .panic
  | some vec =>
    if vec.length ≠ 10 then .error ⟨"NHS Numbers must be of ten-digit long"⟩
    else
      ofExcept (Number.try_from10
        ⟨vec.getD 0 0, vec.getD 1 0, vec.getD 2 0, vec.getD 3 0, vec.getD 4 0,
          vec.getD 5 0, vec.getD 6 0, vec.getD 7 0, vec.getD 8 0, vec.getD 9 0⟩)

/-- Models the Display impl (chi.rs lines 66 to 81): the 9 digits then the
check digit, each written in decimal, with no separators. -/
def display (n : Number) : String :=
  Nat.repr n.digits.d0 ++ Nat.repr n.digits.d1 ++ Nat.repr n.digits.d2 ++
    Nat.repr n.digits.d3 ++ Nat.repr n.digits.d4 ++ Nat.repr n.digits.d5 ++
    Nat.repr n.digits.d6 ++ Nat.repr n.digits.d7 ++ Nat.repr n.digits.d8 ++
    Nat.repr n.checkdigit

end CHI

/-- The character of a single decimal digit value. -/
def digit_char (d : Nat) : Char := Char.ofNat (48 + d)

/-- Checkdigit of a number paired with the core invariant: the stored check
digit is the one check_digit computes from the stored digits. -/
def CoreWellFormed (n : Number) : Prop :=
  Core.check_digit n.digits = .ok n.checkdigit

/-- The NHS variant of the stored-checkdigit invariant. -/
def NHSWellFormed (n : Number) : Prop :=
  NHS.check_digit n.digits = .ok n.checkdigit

theorem weighted_sum_eq (d : Digits9) (h : DigitsInRange d) :
    weighted_sum d = specWeightedSum d := by
  obtain ⟨h0, h1, h2, h3, h4, h5, h6, h7, h8⟩ := h
  simp only [weighted_sum, specWeightedSum, u16]
  omega

theorem core_check_digit_char (d : Digits9) (h : DigitsInRange d) :
    Core.check_digit d =
      (if 11 - specWeightedSum d % 11 = 11 then Except.ok 0
       else if 11 - specWeightedSum d % 11 = 10 then
         Except.error ⟨"Modulus 11 numbers cannot have a check digit of 10"⟩
       else Except.ok (11 - specWeightedSum d % 11)) := by
  have hle : specWeightedSum d % 11 ≤ 10 :=
    Nat.le_of_lt_succ (Nat.mod_lt _ (by omega))
  simp only [Core.check_digit, weighted_sum_eq d h]
  split_ifs <;> first | rfl | omega

theorem core_check_digit_ok_le (d : Digits9) (c : Nat)
    (h : Core.check_digit d = .ok c) : c ≤ 9 := by
  simp only [Core.check_digit] at h
  split_ifs at h with h1 h2 <;> simp only [Except.ok.injEq] at h <;> omega

theorem nhs_check_digit_ok_iff (d : Digits9) (c : Nat) :
    NHS.check_digit d = .ok c ↔ Core.check_digit d = .ok c := by
  simp only [NHS.check_digit, Core.check_digit]
  split_ifs <;> simp

theorem chi_check_digit_ok_iff (d : Digits9) (c : Nat) :
    CHI.check_digit d = .ok c ↔ Core.check_digit d = .ok c := by
  simp only [CHI.check_digit, Core.check_digit]
  split_ifs <;> simp

theorem core_new_ok (d : Digits9) (n : Number)
    (h : Core.Number.new d = .ok n) :
    n.digits = d ∧ Core.check_digit d = .ok n.checkdigit := by
  unfold Core.Number.new at h
  cases hc : Core.check_digit d with
  | ok c => rw [hc] at h; injection h with h2; subst h2; exact ⟨rfl, rfl⟩
  | error e => rw [hc] at h; cases h

theorem nhs_new_ok (d : Digits9) (n : Number)
    (h : NHS.Number.new d = .ok n) :
    n.digits = d ∧ NHS.check_digit d = .ok n.checkdigit := by
  unfold NHS.Number.new at h
  cases hc : NHS.check_digit d with
  | ok c => rw [hc] at h; injection h with h2; subst h2; exact ⟨rfl, rfl⟩
  | error e => rw [hc] at h; cases h

theorem chi_new_ok (d : Digits9) (n : Number)
    (h : CHI.Number.new d = .ok n) :
    n.digits = d ∧ CHI.check_digit d = .ok n.checkdigit := by
  unfold CHI.Number.new at h
  cases hv : CHI.validate d with
  | error e => rw [hv] at h; cases h
  | ok u =>
    rw [hv] at h
    cases hc : CHI.check_digit d with
    | ok c => rw [hc] at h; injection h with h2; subst h2; exact ⟨rfl, rfl⟩
    | error e => rw [hc] at h; cases h

theorem repr_digit (d : Nat) (h : d ≤ 9) :
    Nat.repr d = String.mk [digit_char d] := by
  interval_cases d <;> rfl

theorem digit_char_not_ws (d : Nat) (h : d ≤ 9) :
    is_whitespace (digit_char d) = false := by
  interval_cases d <;> decide

theorem digit_char_to_digit (d : Nat) (h : d ≤ 9) :
    char_to_digit10 (digit_char d) = some d := by
  interval_cases d <;> decide

theorem string_mk_append (l1 l2 : List Char) :
    String.mk l1 ++ String.mk l2 = String.mk (l1 ++ l2) := rfl

theorem extract_digits_map (ds : List Nat) (h : ∀ x ∈ ds, x ≤ 9) :
    extract_digits (ds.map digit_char) = some ds := by
  induction ds with
  | nil => rfl
  | cons a as ih =>
    have ha : a ≤ 9 := h a (List.mem_cons_self _ _)
    have has : ∀ x ∈ as, x ≤ 9 := fun x hx => h x (List.mem_cons_of_mem _ hx)
    simp [extract_digits, digit_char_not_ws a ha, digit_char_to_digit a ha,
      ih has]

theorem core_try_from10_char (v : Digits10) :
    Core.Number.try_from10 v =
      (match Core.Number.new ⟨v.e0, v.e1, v.e2, v.e3, v.e4, v.e5, v.e6, v.e7,
          v.e8⟩ with
       | .error e => .error e
       | .ok number =>
         if number.checkdigit ≠ v.e9 then
           .error ⟨mismatch_msg v.e9 number.checkdigit⟩
         else .ok number) := rfl

theorem core_try_from10_ok (v : Digits10) (n : Number)
    (h : Core.Number.try_from10 v = .ok n) :
    ∃ d : Digits9, Core.Number.new d = .ok n := by
  rw [core_try_from10_char] at h
  split at h
  next e heq => cases h
  next number heq =>
    split at h
    · cases h
    · injection h with h2; subst h2; exact ⟨_, heq⟩

theorem core_new_wf (d : Digits9) (n : Number)
    (h : Core.Number.new d = .ok n) : CoreWellFormed n := by
  obtain ⟨hd, hc⟩ := core_new_ok d n h
  unfold CoreWellFormed
  rw [hd]
  exact hc

/-- Claim C1: every value of the core Number type observable through a public
constructor (new, TryFrom on a 10 digit array, TryFrom on a String, TryFrom on
usize, FromStr), and every Number the NHS lottery returns, stores as
checkdigit exactly the value check_digit computes from its 9 stored digits. -/
theorem claim_C1 :
    (∀ (d : Digits9) (n : Number),
      Core.Number.new d = .ok n → CoreWellFormed n)
  ∧ (∀ (v : Digits10) (n : Number),
      Core.Number.try_from10 v = .ok n → CoreWellFormed n)
  ∧ (∀ (s : String) (n : Number),
      Core.Number.try_from_string s = .ok n → CoreWellFormed n)
  ∧ (∀ (value : Nat) (n : Number),
      Core.Number.try_from_usize value = .ok n → CoreWellFormed n)
  ∧ (∀ (s : String) (n : Number),
      Core.Number.from_str s = .ok n → CoreWellFormed n)
  ∧ (∀ (draws : List Digits9) (n : Number),
      NHS.lottery draws = .ok n → NHSWellFormed n) := by
  have h10 : ∀ (v : Digits10) (n : Number),
      Core.Number.try_from10 v = .ok n → CoreWellFormed n := by
    intro v n h
    obtain ⟨d, hd⟩ := core_try_from10_ok v n h
    exact core_new_wf d n hd
  have hstr : ∀ (s : String) (n : Number),
      Core.Number.from_str s = .ok n → CoreWellFormed n := by
    intro s n h
    unfold Core.Number.from_str at h
    split at h
    · cases h
    next vec heq =>
      split at h
      · cases h
      · cases ht : Core.Number.try_from10
            ⟨vec.getD 0 0, vec.getD 1 0, vec.getD 2 0, vec.getD 3 0,
              vec.getD 4 0, vec.getD 5 0, vec.getD 6 0, vec.getD 7 0,
              vec.getD 8 0, vec.getD 9 0⟩ with
        | error e => rw [ht] at h; cases h
        | ok m =>
          rw [ht] at h
          injection h with h2
          subst h2
          exact h10 _ _ ht
  refine ⟨core_new_wf, h10, hstr, ?_, hstr, ?_⟩
  · intro value n h
    unfold Core.Number.try_from_usize at h
    split at h
    · cases h
    · exact h10 _ _ h
  · intro draws
    induction draws with
    | nil => intro n h; cases h
    | cons d rest ih =>
      intro n h
      simp only [NHS.lottery] at h
      split at h
      next e heq => exact ih n h
      next m heq =>
        injection h with h2
        subst h2
        obtain ⟨hd, hc⟩ := nhs_new_ok d m heq
        unfold NHSWellFormed
        rw [hd]
        exact hc

theorem claim_C1_witness :
    CoreWellFormed ⟨⟨8, 9, 3, 1, 7, 7, 4, 5, 8⟩, 3⟩ ∧
      NHSWellFormed ⟨⟨8, 9, 3, 1, 7, 7, 4, 5, 8⟩, 3⟩ :=
  ⟨claim_C1.1 ⟨8, 9, 3, 1, 7, 7, 4, 5, 8⟩ ⟨⟨8, 9, 3, 1, 7, 7, 4, 5, 8⟩, 3⟩
      (by decide),
    claim_C1.2.2.2.2.2 [⟨8, 9, 3, 1, 7, 7, 4, 5, 8⟩]
      ⟨⟨8, 9, 3, 1, 7, 7, 4, 5, 8⟩, 3⟩ (by decide)⟩

/-- Claim C2: on 9 digits in range, check_digit returns 0 when the candidate
11 minus (weighted sum mod 11) equals 11, the checksum domain error when the
candidate equals 10, and the candidate otherwise; with the three known
vectors. -/
theorem claim_C2 :
    (∀ d : Digits9, DigitsInRange d →
      Core.check_digit d =
        (if 11 - specWeightedSum d % 11 = 11 then Except.ok 0
         else if 11 - specWeightedSum d % 11 = 10 then
           Except.error ⟨"Modulus 11 numbers cannot have a check digit of 10"⟩
         else Except.ok (11 - specWeightedSum d % 11)))
  ∧ Core.check_digit ⟨8, 9, 3, 1, 7, 7, 4, 5, 8⟩ = .ok 3
  ∧ Core.check_digit ⟨9, 7, 0, 9, 6, 3, 8, 5, 1⟩ = .ok 3
  ∧ Core.check_digit ⟨0, 1, 0, 1, 9, 9, 0, 0, 1⟩ = .ok 4 :=
  ⟨core_check_digit_char, by decide, by decide, by decide⟩

theorem claim_C2_witness :
    Core.check_digit ⟨1, 1, 1, 1, 1, 1, 1, 1, 1⟩ =
      (if 11 - specWeightedSum ⟨1, 1, 1, 1, 1, 1, 1, 1, 1⟩ % 11 = 11 then
         Except.ok 0
       else if 11 - specWeightedSum ⟨1, 1, 1, 1, 1, 1, 1, 1, 1⟩ % 11 = 10 then
         Except.error ⟨"Modulus 11 numbers cannot have a check digit of 10"⟩
       else Except.ok (11 - specWeightedSum ⟨1, 1, 1, 1, 1, 1, 1, 1, 1⟩ % 11)) :=
  claim_C2.1 ⟨1, 1, 1, 1, 1, 1, 1, 1, 1⟩ (by decide)

/-- Claim C3, code evaluation: on an input with a character that is neither a
decimal digit nor whitespace, from_str reaches to_digit(10).unwrap() inside
the filter_map and panics instead of returning a format error. -/
theorem claim_C3_panics :
    Core.Number.from_str "x234567890" = ParseResult.panic := by decide

/-- Claim C4, code evaluation: the magnitude guard of TryFrom on usize
compares (value div 10 to the 9, times 10) mod 10 against 0, which holds for
every value, so the guard never fires and every value decomposes into its
last 10 decimal digits; 10 to the 10 is accepted as the all zero number
instead of failing with a magnitude error, while values below 10 to the 10
parse identically to their string form. -/
theorem claim_C4_dead_guard :
    (∀ value : Nat, (value / 1000000000 * 10) % 10 = 0)
  ∧ (∀ value : Nat, Core.Number.try_from_usize value =
      Core.Number.try_from10
        ⟨value / 1000000000 % 10, value / 100000000 % 10,
          value / 10000000 % 10, value / 1000000 % 10, value / 100000 % 10,
          value / 10000 % 10, value / 1000 % 10, value / 100 % 10,
          value / 10 % 10, value / 1 % 10⟩)
  ∧ Core.Number.try_from_usize 10000000000 = .ok ⟨⟨0, 0, 0, 0, 0, 0, 0, 0, 0⟩, 0⟩
  ∧ Core.Number.try_from_usize 6541003238 = .ok ⟨⟨6, 5, 4, 1, 0, 0, 3, 2, 3⟩, 8⟩
  ∧ Core.Number.from_str "6541003238" =
      ParseResult.ok ⟨⟨6, 5, 4, 1, 0, 0, 3, 2, 3⟩, 8⟩ := by
  refine ⟨fun value => Nat.mul_mod_left _ _, ?_, by decide, by decide, by decide⟩
  intro value
  unfold Core.Number.try_from_usize
  rw [if_neg]
  intro hx
  exact hx (Nat.mul_mod_left _ _)

/-- Claim C5: for 9 in range digits whose weighted sum mod 11 is not 1 and a
control digit c, the 10 digit TryFrom succeeds exactly when c is the computed
check digit, yielding the value Number::new builds from the 9 digits, and
otherwise fails with the mismatch error naming the supplied and the computed
digit. -/
theorem claim_C5 : ∀ (d : Digits9) (c : Nat), DigitsInRange d → c ≤ 9 →
    specWeightedSum d % 11 ≠ 1 →
    ∃ n : Number, Core.Number.new d = .ok n ∧ n.digits = d ∧
      ((∃ m, Core.Number.try_from10
          ⟨d.d0, d.d1, d.d2, d.d3, d.d4, d.d5, d.d6, d.d7, d.d8, c⟩ = .ok m)
        ↔ c = n.checkdigit)
      ∧ (c = n.checkdigit → Core.Number.try_from10
          ⟨d.d0, d.d1, d.d2, d.d3, d.d4, d.d5, d.d6, d.d7, d.d8, c⟩ = .ok n)
      ∧ (c ≠ n.checkdigit → Core.Number.try_from10
          ⟨d.d0, d.d1, d.d2, d.d3, d.d4, d.d5, d.d6, d.d7, d.d8, c⟩ =
          .error ⟨mismatch_msg c n.checkdigit⟩) := by
  intro d c hr hc9 hws
  have hchar := core_check_digit_char d hr
  have hlt : specWeightedSum d % 11 < 11 := Nat.mod_lt _ (by omega)
  have hok : ∃ cd, Core.check_digit d = .ok cd := by
    rw [hchar]
    by_cases h0 : 11 - specWeightedSum d % 11 = 11
    · exact ⟨0, by rw [if_pos h0]⟩
    · have h10 : ¬ (11 - specWeightedSum d % 11 = 10) := by omega
      exact ⟨11 - specWeightedSum d % 11, by rw [if_neg h0, if_neg h10]⟩
  obtain ⟨cd, hcd⟩ := hok
  have hnew : Core.Number.new d = .ok ⟨d, cd⟩ := by
    unfold Core.Number.new
    rw [hcd]
  have key : Core.Number.try_from10
      ⟨d.d0, d.d1, d.d2, d.d3, d.d4, d.d5, d.d6, d.d7, d.d8, c⟩ =
      (if cd ≠ c then Except.error ⟨mismatch_msg c cd⟩
       else Except.ok ⟨d, cd⟩) := by
    have e1 : Core.Number.try_from10
        ⟨d.d0, d.d1, d.d2, d.d3, d.d4, d.d5, d.d6, d.d7, d.d8, c⟩ =
        (match Core.Number.new d with
         | .error e => .error e
         | .ok number =>
           if number.checkdigit ≠ c then
             .error ⟨mismatch_msg c number.checkdigit⟩
           else .ok number) := rfl
    rw [e1, hnew]
  refine ⟨⟨d, cd⟩, hnew, rfl, ?_, ?_, ?_⟩
  · show (∃ m, Core.Number.try_from10
        ⟨d.d0, d.d1, d.d2, d.d3, d.d4, d.d5, d.d6, d.d7, d.d8, c⟩ = .ok m) ↔
        c = cd
    rw [key]
    by_cases hce : cd = c
    · rw [if_neg (fun hx => hx hce)]
      exact ⟨fun _ => hce.symm, fun _ => ⟨⟨d, cd⟩, rfl⟩⟩
    · rw [if_pos hce]
      constructor
      · rintro ⟨m, hm⟩
        cases hm
      · intro hx
        exact absurd hx.symm hce
  · show c = cd → Core.Number.try_from10
        ⟨d.d0, d.d1, d.d2, d.d3, d.d4, d.d5, d.d6, d.d7, d.d8, c⟩ =
        .ok ⟨d, cd⟩
    intro heq
    rw [key, if_neg (fun hx => hx heq.symm)]
  · show c ≠ cd → Core.Number.try_from10
        ⟨d.d0, d.d1, d.d2, d.d3, d.d4, d.d5, d.d6, d.d7, d.d8, c⟩ =
        .error ⟨mismatch_msg c cd⟩
    intro hne
    rw [key, if_pos (fun hx => hne hx.symm)]

theorem claim_C5_witness :
    ∃ n : Number, Core.Number.new ⟨8, 9, 3, 1, 7, 7, 4, 5, 8⟩ = .ok n ∧
      n.digits = ⟨8, 9, 3, 1, 7, 7, 4, 5, 8⟩ ∧
      ((∃ m, Core.Number.try_from10 ⟨8, 9, 3, 1, 7, 7, 4, 5, 8, 3⟩ = .ok m)
        ↔ 3 = n.checkdigit)
      ∧ (3 = n.checkdigit →
          Core.Number.try_from10 ⟨8, 9, 3, 1, 7, 7, 4, 5, 8, 3⟩ = .ok n)
      ∧ (3 ≠ n.checkdigit →
          Core.Number.try_from10 ⟨8, 9, 3, 1, 7, 7, 4, 5, 8, 3⟩ =
            .error ⟨mismatch_msg 3 n.checkdigit⟩) :=
  claim_C5 ⟨8, 9, 3, 1, 7, 7, 4, 5, 8⟩ 3 (by decide) (by decide) (by decide)

theorem chi_new_error_cases (d : Digits9) (e : ValidationError)
    (h : CHI.Number.new d = .error e) :
    CHI.validate d = .error e ∨ CHI.check_digit d = .error e := by
  unfold CHI.Number.new at h
  split at h
  next e2 heq => injection h with h2; subst h2; exact .inl heq
  next u heq =>
    split at h
    next c heq2 => cases h
    next e2 heq2 => injection h with h2; subst h2; exact .inr heq2

theorem chi_check_digit_error_msg (d : Digits9) (e : ValidationError)
    (h : CHI.check_digit d = .error e) :
    e = ⟨"CHI numbers don\x27t have a check digit of 10"⟩ := by
  simp only [CHI.check_digit] at h
  split_ifs at h
  injection h with h2
  exact h2.symm

/-- Claim C6: with day and month read off the first four digits, CHI
construction fails with the date range error exactly when day is 0 or above
31 or month is 0 or above 12; the date check runs before the checksum, so a
day 32 or day 00 prefix fails with the date error whether the checksum of
the digits is valid or has no valid check digit at all. -/
theorem claim_C6 :
    (∀ d : Digits9, DigitsInRange d →
      (CHI.Number.new d = .error ⟨"Invalid CHI number"⟩ ↔
        (chi_day d = 0 ∨ 31 < chi_day d ∨ chi_month d = 0 ∨ 12 < chi_month d)))
  ∧ CHI.Number.new ⟨3, 2, 0, 1, 0, 0, 0, 0, 0⟩ = .error ⟨"Invalid CHI number"⟩
  ∧ Core.check_digit ⟨3, 2, 0, 1, 0, 0, 0, 0, 0⟩ = .ok 0
  ∧ CHI.Number.new ⟨3, 2, 0, 1, 0, 0, 0, 0, 6⟩ = .error ⟨"Invalid CHI number"⟩
  ∧ Core.check_digit ⟨3, 2, 0, 1, 0, 0, 0, 0, 6⟩ =
      .error ⟨"Modulus 11 numbers cannot have a check digit of 10"⟩
  ∧ CHI.Number.new ⟨0, 0, 0, 1, 0, 0, 0, 0, 0⟩ =
      .error ⟨"Invalid CHI number"⟩ := by
  refine ⟨?_, by decide, by decide, by decide, by decide, by decide⟩
  intro d hr
  obtain ⟨h0, h1, h2, h3, _⟩ := hr
  have hval : CHI.validate d =
      (if chi_day d = 0 ∨ 31 < chi_day d ∨ chi_month d = 0 ∨ 12 < chi_month d
       then .error ⟨"Invalid CHI number"⟩ else .ok ()) := by
    have hday : u16 (u16 (d.d0 * 10) + d.d1) = chi_day d := by
      simp only [u16, chi_day]; omega
    have hmonth : u16 (u16 (d.d2 * 10) + d.d3) = chi_month d := by
      simp only [u16, chi_month]; omega
    simp only [CHI.validate, hday, hmonth]
  constructor
  · intro h
    by_cases hbad : chi_day d = 0 ∨ 31 < chi_day d ∨ chi_month d = 0 ∨
        12 < chi_month d
    · exact hbad
    · exfalso
      rcases chi_new_error_cases d _ h with hv | hcd
      · rw [hval, if_neg hbad] at hv
        cases hv
      · have := chi_check_digit_error_msg d _ hcd
        have hne : (⟨"Invalid CHI number"⟩ : ValidationError) ≠
            ⟨"CHI numbers don\x27t have a check digit of 10"⟩ := by decide
        exact hne this
  · intro hbad
    unfold CHI.Number.new
    rw [hval, if_pos hbad]

theorem claim_C6_witness :
    CHI.Number.new ⟨3, 2, 1, 2, 3, 4, 5, 6, 7⟩ = .error ⟨"Invalid CHI number"⟩ :=
  (claim_C6.1 ⟨3, 2, 1, 2, 3, 4, 5, 6, 7⟩ (by decide)).mpr (by decide)

/-- Claim C10: Number::new of number.rs does no range validation of its
input digits: its only possible error is the checksum domain error, and on
the array with final entry 11 it succeeds, yielding an observable Number
that carries a stored digit above 9. -/
theorem claim_C10 :
    (∀ (d : Digits9) (e : ValidationError), Core.Number.new d = .error e →
      e = ⟨"Modulus 11 numbers cannot have a check digit of 10"⟩)
  ∧ Core.Number.new ⟨0, 0, 0, 0, 0, 0, 0, 0, 11⟩ =
      .ok ⟨⟨0, 0, 0, 0, 0, 0, 0, 0, 11⟩, 0⟩
  ∧ 9 < (Digits9.mk 0 0 0 0 0 0 0 0 11).d8 := by
  refine ⟨?_, by decide, by decide⟩
  intro d e h
  unfold Core.Number.new at h
  split at h
  next c heq => cases h
  next e2 heq =>
    injection h with h2
    subst h2
    simp only [Core.check_digit] at heq
    split_ifs at heq
    injection heq with h3
    exact h3.symm

theorem claim_C10_witness :
    (⟨"Modulus 11 numbers cannot have a check digit of 10"⟩ : ValidationError) =
      ⟨"Modulus 11 numbers cannot have a check digit of 10"⟩ :=
  claim_C10.1 ⟨0, 0, 0, 0, 0, 0, 0, 0, 6⟩
    ⟨"Modulus 11 numbers cannot have a check digit of 10"⟩ (by decide)

theorem nhs_display_compact_chars (n : Number) (h : DigitsInRange n.digits)
    (hc : n.checkdigit ≤ 9) :
    NHS.display n false = String.mk
      [digit_char n.digits.d0, digit_char n.digits.d1, digit_char n.digits.d2,
       digit_char n.digits.d3, digit_char n.digits.d4, digit_char n.digits.d5,
       digit_char n.digits.d6, digit_char n.digits.d7, digit_char n.digits.d8,
       digit_char n.checkdigit] := by
  obtain ⟨h0, h1, h2, h3, h4, h5, h6, h7, h8⟩ := h
  simp only [NHS.display, repr_digit _ h0, repr_digit _ h1, repr_digit _ h2,
    repr_digit _ h3, repr_digit _ h4, repr_digit _ h5, repr_digit _ h6,
    repr_digit _ h7, repr_digit _ h8, repr_digit _ hc]
  rfl

theorem nhs_display_official_chars (n : Number) (h : DigitsInRange n.digits)
    (hc : n.checkdigit ≤ 9) :
    NHS.display n true = String.mk
      [digit_char n.digits.d0, digit_char n.digits.d1, digit_char n.digits.d2,
       ' ',
       digit_char n.digits.d3, digit_char n.digits.d4, digit_char n.digits.d5,
       ' ',
       digit_char n.digits.d6, digit_char n.digits.d7, digit_char n.digits.d8,
       digit_char n.checkdigit] := by
  obtain ⟨h0, h1, h2, h3, h4, h5, h6, h7, h8⟩ := h
  simp only [NHS.display, repr_digit _ h0, repr_digit _ h1, repr_digit _ h2,
    repr_digit _ h3, repr_digit _ h4, repr_digit _ h5, repr_digit _ h6,
    repr_digit _ h7, repr_digit _ h8, repr_digit _ hc]
  rfl

theorem chi_display_chars (n : Number) (h : DigitsInRange n.digits)
    (hc : n.checkdigit ≤ 9) :
    CHI.display n = String.mk
      [digit_char n.digits.d0, digit_char n.digits.d1, digit_char n.digits.d2,
       digit_char n.digits.d3, digit_char n.digits.d4, digit_char n.digits.d5,
       digit_char n.digits.d6, digit_char n.digits.d7, digit_char n.digits.d8,
       digit_char n.checkdigit] := by
  obtain ⟨h0, h1, h2, h3, h4, h5, h6, h7, h8⟩ := h
  simp only [CHI.display, repr_digit _ h0, repr_digit _ h1, repr_digit _ h2,
    repr_digit _ h3, repr_digit _ h4, repr_digit _ h5, repr_digit _ h6,
    repr_digit _ h7, repr_digit _ h8, repr_digit _ hc]
  rfl

theorem from_str_digit_chars_nhs (x0 x1 x2 x3 x4 x5 x6 x7 x8 x9 : Nat)
    (hx : ∀ x ∈ [x0, x1, x2, x3, x4, x5, x6, x7, x8, x9], x ≤ 9) :
    NHS.Number.from_str
        (String.mk [digit_char x0, digit_char x1, digit_char x2, digit_char x3,
          digit_char x4, digit_char x5, digit_char x6, digit_char x7,
          digit_char x8, digit_char x9]) =
      ofExcept (NHS.Number.try_from10 ⟨x0, x1, x2, x3, x4, x5, x6, x7, x8, x9⟩) := by
  unfold NHS.Number.from_str
  rw [show (String.mk [digit_char x0, digit_char x1, digit_char x2,
      digit_char x3, digit_char x4, digit_char x5, digit_char x6, digit_char x7,
      digit_char x8, digit_char x9]).data =
    List.map digit_char [x0, x1, x2, x3, x4, x5, x6, x7, x8, x9] from rfl]
  rw [extract_digits_map _ hx]
  rfl

theorem from_str_digit_chars_chi (x0 x1 x2 x3 x4 x5 x6 x7 x8 x9 : Nat)
    (hx : ∀ x ∈ [x0, x1, x2, x3, x4, x5, x6, x7, x8, x9], x ≤ 9) :
    CHI.Number.from_str
        (String.mk [digit_char x0, digit_char x1, digit_char x2, digit_char x3,
          digit_char x4, digit_char x5, digit_char x6, digit_char x7,
          digit_char x8, digit_char x9]) =
      ofExcept (CHI.Number.try_from10 ⟨x0, x1, x2, x3, x4, x5, x6, x7, x8, x9⟩) := by
  unfold CHI.Number.from_str
  rw [show (String.mk [digit_char x0, digit_char x1, digit_char x2,
      digit_char x3, digit_char x4, digit_char x5, digit_char x6, digit_char x7,
      digit_char x8, digit_char x9]).data =
    List.map digit_char [x0, x1, x2, x3, x4, x5, x6, x7, x8, x9] from rfl]
  rw [extract_digits_map _ hx]
  rfl

theorem digits_mem_le (n : Number) (hrn : DigitsInRange n.digits)
    (hc9 : n.checkdigit ≤ 9) :
    ∀ x ∈ [n.digits.d0, n.digits.d1, n.digits.d2, n.digits.d3, n.digits.d4,
      n.digits.d5, n.digits.d6, n.digits.d7, n.digits.d8, n.checkdigit],
      x ≤ 9 := by
  obtain ⟨h0, h1, h2, h3, h4, h5, h6, h7, h8⟩ := hrn
  intro x hx
  simp only [List.mem_cons, List.not_mem_nil, or_false] at hx
  rcases hx with rfl | rfl | rfl | rfl | rfl | rfl | rfl | rfl | rfl | rfl <;>
    assumption

/-- Claim C7: parsing the compact display of a validly constructed NHS or CHI
identifier, built by Number::new from in range digits, reproduces the
identifier. -/
theorem claim_C7 : ∀ (d : Digits9) (n : Number), DigitsInRange d →
    ((NHS.Number.new d = .ok n →
        NHS.Number.from_str (NHS.display n false) = ParseResult.ok n)
     ∧ (CHI.Number.new d = .ok n →
        CHI.Number.from_str (CHI.display n) = ParseResult.ok n)) := by
  intro d n hr
  constructor
  · intro hnew
    obtain ⟨hd, hck⟩ := nhs_new_ok d n hnew
    have hc9 : n.checkdigit ≤ 9 :=
      core_check_digit_ok_le d _ ((nhs_check_digit_ok_iff d _).mp hck)
    have hrn : DigitsInRange n.digits := by rw [hd]; exact hr
    rw [nhs_display_compact_chars n hrn hc9]
    rw [from_str_digit_chars_nhs _ _ _ _ _ _ _ _ _ _ (digits_mem_le n hrn hc9)]
    have key : NHS.Number.try_from10
        ⟨n.digits.d0, n.digits.d1, n.digits.d2, n.digits.d3, n.digits.d4,
          n.digits.d5, n.digits.d6, n.digits.d7, n.digits.d8, n.checkdigit⟩ =
        (match NHS.Number.new n.digits with
         | .error e => .error e
         | .ok number =>
           if number.checkdigit ≠ n.checkdigit then
             .error ⟨mismatch_msg n.checkdigit number.checkdigit⟩
           else .ok number) := rfl
    rw [key, hd, hnew]
    show ofExcept (if n.checkdigit ≠ n.checkdigit then
        Except.error ⟨mismatch_msg n.checkdigit n.checkdigit⟩
      else Except.ok n) = ParseResult.ok n
    rw [if_neg (fun hx => hx rfl)]
    rfl
  · intro hnew
    obtain ⟨hd, hck⟩ := chi_new_ok d n hnew
    have hc9 : n.checkdigit ≤ 9 :=
      core_check_digit_ok_le d _ ((chi_check_digit_ok_iff d _).mp hck)
    have hrn : DigitsInRange n.digits := by rw [hd]; exact hr
    rw [chi_display_chars n hrn hc9]
    rw [from_str_digit_chars_chi _ _ _ _ _ _ _ _ _ _ (digits_mem_le n hrn hc9)]
    have key : CHI.Number.try_from10
        ⟨n.digits.d0, n.digits.d1, n.digits.d2, n.digits.d3, n.digits.d4,
          n.digits.d5, n.digits.d6, n.digits.d7, n.digits.d8, n.checkdigit⟩ =
        (match CHI.Number.new n.digits with
         | .error e => .error e
         | .ok number =>
           if number.checkdigit ≠ n.checkdigit then
             .error ⟨mismatch_msg n.checkdigit number.checkdigit⟩
           else .ok number) := rfl
    rw [key, hd, hnew]
    show ofExcept (if n.checkdigit ≠ n.checkdigit then
        Except.error ⟨mismatch_msg n.checkdigit n.checkdigit⟩
      else Except.ok n) = ParseResult.ok n
    rw [if_neg (fun hx => hx rfl)]
    rfl

theorem claim_C7_witness :
    NHS.Number.from_str (NHS.display ⟨⟨8, 9, 3, 1, 7, 7, 4, 5, 8⟩, 3⟩ false) =
      ParseResult.ok ⟨⟨8, 9, 3, 1, 7, 7, 4, 5, 8⟩, 3⟩ ∧
    CHI.Number.from_str (CHI.display ⟨⟨0, 1, 0, 1, 9, 9, 0, 0, 1⟩, 4⟩) =
      ParseResult.ok ⟨⟨0, 1, 0, 1, 9, 9, 0, 0, 1⟩, 4⟩ :=
  ⟨(claim_C7 ⟨8, 9, 3, 1, 7, 7, 4, 5, 8⟩ ⟨⟨8, 9, 3, 1, 7, 7, 4, 5, 8⟩, 3⟩
      (by decide)).1 (by decide),
   (claim_C7 ⟨0, 1, 0, 1, 9, 9, 0, 0, 1⟩ ⟨⟨0, 1, 0, 1, 9, 9, 0, 0, 1⟩, 4⟩
      (by decide)).2 (by decide)⟩

theorem extract_digits_good (l : List Char)
    (h : ∀ c ∈ l, is_whitespace c = true ∨ (48 ≤ c.toNat ∧ c.toNat ≤ 57)) :
    extract_digits l =
      some ((l.filter (fun c => !is_whitespace c)).map
        (fun c => c.toNat - 48)) := by
  induction l with
  | nil => rfl
  | cons c cs ih =>
    have hc := h c (List.mem_cons_self _ _)
    have hcs : ∀ x ∈ cs, is_whitespace x = true ∨ (48 ≤ x.toNat ∧ x.toNat ≤ 57) :=
      fun x hx => h x (List.mem_cons_of_mem _ hx)
    by_cases hw : is_whitespace c
    · simp [extract_digits, hw, ih hcs, List.filter_cons]
    · rcases hc with hc | hc
      · exact absurd hc hw
      · have hcd : char_to_digit10 c = some (c.toNat - 48) := by
          simp [char_to_digit10, hc]
        simp [extract_digits, hw, hcd, ih hcs, List.filter_cons]

/-- Claim C8 counterexample: on eleven letter x characters, the count of non
whitespace characters is 11, not 10, yet from_str panics rather than failing
with the length error, refuting the stated shape of string parsing on
arbitrary input. -/
theorem claim_C8_counterexample :
    ((String.data "xxxxxxxxxxx").filter (fun c => !is_whitespace c)).length = 11
    ∧ Core.Number.from_str "xxxxxxxxxxx" = ParseResult.panic := by
  exact ⟨by decide, by decide⟩

/-- Claim C8 amended: on strings whose characters are all decimal digits or
whitespace, from_str strips the whitespace, fails with the length error
exactly when the remaining digit count is not 10, and otherwise delegates to
the 10 digit TryFrom; the grouped and plain forms of 8931774583 both parse to
the identifier with check digit 3. -/
theorem claim_C8_amended :
    (∀ s : String,
      (∀ c ∈ s.data, is_whitespace c = true ∨ (48 ≤ c.toNat ∧ c.toNat ≤ 57)) →
      (((stripped s).length ≠ 10 →
        Core.Number.from_str s = .error ⟨"NHS Numbers must be of ten-digit long"⟩)
      ∧ ((stripped s).length = 10 →
        Core.Number.from_str s = ofExcept (Core.Number.try_from10
          ⟨(stripped s).getD 0 0, (stripped s).getD 1 0, (stripped s).getD 2 0,
           (stripped s).getD 3 0, (stripped s).getD 4 0, (stripped s).getD 5 0,
           (stripped s).getD 6 0, (stripped s).getD 7 0, (stripped s).getD 8 0,
           (stripped s).getD 9 0⟩))))
  ∧ Core.Number.from_str "893 177 4583" =
      ParseResult.ok ⟨⟨8, 9, 3, 1, 7, 7, 4, 5, 8⟩, 3⟩
  ∧ Core.Number.from_str "8931774583" =
      ParseResult.ok ⟨⟨8, 9, 3, 1, 7, 7, 4, 5, 8⟩, 3⟩ := by
  refine ⟨?_, by decide, by decide⟩
  intro s hgood
  have hext : extract_digits s.data = some (stripped s) :=
    extract_digits_good s.data hgood
  constructor
  · intro hlen
    simp only [Core.Number.from_str, hext]
    rw [if_pos hlen]
  · intro hlen
    simp only [Core.Number.from_str, hext]
    rw [if_neg (fun hx => hx hlen)]

theorem claim_C8_witness :
    Core.Number.from_str "8931774583" =
      ofExcept (Core.Number.try_from10 ⟨8, 9, 3, 1, 7, 7, 4, 5, 8, 3⟩) := by
  have h := (claim_C8_amended.1 "8931774583" (by decide)).2 (by decide)
  rw [h]
  rfl

/-- Claim C9: the compact NHS display is the 10 digit characters with no
separator and the official display inserts one space after the third and one
after the sixth digit; the number 8931774583 renders as 893 177 4583
officially and 8931774583 compactly. -/
theorem claim_C9 :
    (∀ (d : Digits9) (n : Number), DigitsInRange d →
      NHS.Number.new d = .ok n →
      NHS.display n false = String.mk
        [digit_char n.digits.d0, digit_char n.digits.d1, digit_char n.digits.d2,
         digit_char n.digits.d3, digit_char n.digits.d4, digit_char n.digits.d5,
         digit_char n.digits.d6, digit_char n.digits.d7, digit_char n.digits.d8,
         digit_char n.checkdigit]
      ∧ NHS.display n true = String.mk
        [digit_char n.digits.d0, digit_char n.digits.d1, digit_char n.digits.d2,
         ' ',
         digit_char n.digits.d3, digit_char n.digits.d4, digit_char n.digits.d5,
         ' ',
         digit_char n.digits.d6, digit_char n.digits.d7, digit_char n.digits.d8,
         digit_char n.checkdigit])
  ∧ NHS.Number.from_str "8931774583" =
      ParseResult.ok ⟨⟨8, 9, 3, 1, 7, 7, 4, 5, 8⟩, 3⟩
  ∧ NHS.display ⟨⟨8, 9, 3, 1, 7, 7, 4, 5, 8⟩, 3⟩ true = "893 177 4583"
  ∧ NHS.display ⟨⟨8, 9, 3, 1, 7, 7, 4, 5, 8⟩, 3⟩ false = "8931774583" := by
  refine ⟨?_, by decide, by decide, by decide⟩
  intro d n hr hnew
  obtain ⟨hd, hck⟩ := nhs_new_ok d n hnew
  have hc9 : n.checkdigit ≤ 9 :=
    core_check_digit_ok_le d _ ((nhs_check_digit_ok_iff d _).mp hck)
  have hrn : DigitsInRange n.digits := by rw [hd]; exact hr
  exact ⟨nhs_display_compact_chars n hrn hc9,
    nhs_display_official_chars n hrn hc9⟩

theorem claim_C9_witness :
    NHS.display ⟨⟨8, 9, 3, 1, 7, 7, 4, 5, 8⟩, 3⟩ false = String.mk
      [digit_char 8, digit_char 9, digit_char 3, digit_char 1, digit_char 7,
       digit_char 7, digit_char 4, digit_char 5, digit_char 8, digit_char 3]
    ∧ NHS.display ⟨⟨8, 9, 3, 1, 7, 7, 4, 5, 8⟩, 3⟩ true = String.mk
      [digit_char 8, digit_char 9, digit_char 3, ' ', digit_char 1,
       digit_char 7, digit_char 7, ' ', digit_char 4, digit_char 5,
       digit_char 8, digit_char 3] :=
  claim_C9.1 ⟨8, 9, 3, 1, 7, 7, 4, 5, 8⟩ ⟨⟨8, 9, 3, 1, 7, 7, 4, 5, 8⟩, 3⟩
    (by decide) (by decide)

end Heidi
